import Mathlib

/-!
Verification of the Device Security Assessment Engine of the
mobile-security-automation repository.

The JavaScript sources are shallowly embedded as executable Lean
definitions:

* `src/utils/device-detector.js` — `DeviceDetector.detectRoot` /
  `DeviceDetector.detectEmulator` (indicator counting, confidence,
  thresholds);
* `SecurityChecker` (`security-checker.js`) —
  `calculateOverallAssessment`, `getSecurityLevel`, `getRiskLevel`,
  `calculateRootRisk`;
* `src/utils/file-manipulator.js` — `createBackup`,
  `restoreFromBackup`, `cleanup`, `modifyPropertiesFile`, and the
  polling loop of `monitorFileIntegrity`.

Modelling conventions:

* JavaScript strings that are split, trimmed or compared per line are
  embedded as `List Char` (`Str`); Lean's built-in `String` is kept for
  opaque keys (paths, backup names) that are only compared for equality.
* File bytes are `List Nat`; the SHA-256 function of the external
  `crypto` library is a parameter `hash : Bytes → Nat` of the model —
  every theorem below holds for an arbitrary hash function.
* JavaScript `Map` objects are association lists with `lookupS`/`setS`
  reproducing `Map.get`/`Map.set` (in-place update of an existing key,
  append otherwise).
* Floating-point scores and weights are modelled as exact rationals; all
  comparisons appearing in the claims are at points where the float and
  rational orders agree.
-/

namespace MobileSec

/-! ## Characters and line-oriented string operations -/

/-- File/line content: a JavaScript string viewed as its characters. -/
abbrev Str := List Char

/-- `content.split('\n')` of JavaScript. -/
def splitNl : Str → List Str
  | [] => [[]]
  | c :: rest =>
    let r := splitNl rest
    if c = '\n' then [] :: r
    else
      match r with
      | [] => [[c]]
      | l :: ls => (c :: l) :: ls

/-- `lines.join('\n')` of JavaScript. -/
def joinNl : List Str → Str
  | [] => []
  | [l] => l
  | l :: ls => l ++ '\n' :: joinNl ls

/-- `line.trim()` of JavaScript: strip whitespace from both ends. -/
def trimL (l : Str) : Str :=
  ((l.dropWhile Char.isWhitespace).reverse.dropWhile Char.isWhitespace).reverse

/-- `s.startsWith(pre)` of JavaScript. -/
def startsWithL (pre l : Str) : Bool :=
  decide (l.take pre.length = pre)

/-! ## Association lists for JavaScript `Map` -/

/-- `map.get(k)` — first binding of `k`, if any. -/
def lookupS {α : Type} : List (String × α) → String → Option α
  | [], _ => none
  | (k', v) :: rest, k => if k' = k then some v else lookupS rest k

/-- `map.set(k, v)` — update an existing binding in place, else append. -/
def setS {α : Type} : List (String × α) → String → α → List (String × α)
  | [], k, v => [(k, v)]
  | (k', v') :: rest, k, v =>
    if k' = k then (k, v) :: rest else (k', v') :: setS rest k v

theorem lookupS_setS_self {α : Type} (m : List (String × α)) (k : String) (v : α) :
    lookupS (setS m k v) k = some v := by
  induction m with
  | nil => simp [setS, lookupS]
  | cons hd tl ih =>
    obtain ⟨k', v'⟩ := hd
    by_cases h : k' = k <;> simp [setS, lookupS, h, ih]

/-! ## DeviceDetector: indicator counting and confidence

`DeviceDetector.detectRoot` collects eight boolean indicator results and
computes `confidence = (fired indicators) / (total indicators)`;
`isRooted := confidence > 0.3`.  `DeviceDetector.detectEmulator` does the
same over seven indicators with threshold `0.5`.
-/

/-- The eight root detection probes of `DeviceDetector.detectRoot`
(`detectionResults` object, in source order). -/
structure RootChecks where
  suBinary : Bool
  rootApps : Bool
  systemWritable : Bool
  dangerousProps : Bool
  rootCloaking : Bool
  busyBox : Bool
  xposed : Bool
  magisk : Bool
deriving DecidableEq, Repr

/-- `Object.values(detectionResults)` for root detection. -/
def rootIndicators (r : RootChecks) : List Bool :=
  [r.suBinary, r.rootApps, r.systemWritable, r.dangerousProps,
   r.rootCloaking, r.busyBox, r.xposed, r.magisk]

/-- The seven emulator detection probes of
`DeviceDetector.detectEmulator` (in source order). -/
structure EmulatorChecks where
  buildFingerprint : Bool
  hardwareFeatures : Bool
  systemFiles : Bool
  networkInterface : Bool
  sensorData : Bool
  performanceMetrics : Bool
  processAnalysis : Bool
deriving DecidableEq, Repr

/-- `Object.values(detectionResults)` for emulator detection. -/
def emulatorIndicators (e : EmulatorChecks) : List Bool :=
  [e.buildFingerprint, e.hardwareFeatures, e.systemFiles,
   e.networkInterface, e.sensorData, e.performanceMetrics,
   e.processAnalysis]

/-- `Object.values(results).filter(r => r.detected).length`. -/
def firedCount (l : List Bool) : Nat :=
  (l.filter (fun b => b)).length

/-- `confidence = indicators / Object.keys(results).length`. -/
def detectConfidence (l : List Bool) : ℚ :=
  (firedCount l : ℚ) / (l.length : ℚ)

/-- Root detection confidence (`device-detector.js` line 156). -/
def rootConfidence (r : RootChecks) : ℚ :=
  detectConfidence (rootIndicators r)

/-- `isRooted: confidence > 0.3` (`device-detector.js` line 159). -/
def isRooted (r : RootChecks) : Bool :=
  decide (rootConfidence r > 3 / 10)

/-- Emulator detection confidence (`device-detector.js` line 112). -/
def emulatorConfidence (e : EmulatorChecks) : ℚ :=
  detectConfidence (emulatorIndicators e)

/-- `isEmulator: confidence > 0.5` (`device-detector.js` line 115). -/
def isEmulator (e : EmulatorChecks) : Bool :=
  decide (emulatorConfidence e > 1 / 2)

/-- `SecurityChecker.calculateRootRisk`: `unknown` when detection is
absent or errored, else `critical` iff rooted. -/
def calculateRootRisk : Option Bool → String
  | none => "unknown"
  | some b => if b then "critical" else "low"

/-! ## SecurityChecker: overall assessment -/

/-- `Math.round` for the nonnegative scores appearing here. -/
def jsRound (q : ℚ) : ℤ := ⌊q + 1 / 2⌋

/-- `SecurityChecker.getSecurityLevel`. -/
def getSecurityLevel (score : ℚ) : String :=
  if score ≥ 90 then "excellent"
  else if score ≥ 80 then "good"
  else if score ≥ 70 then "acceptable"
  else if score ≥ 60 then "poor"
  else "critical"

/-- `SecurityChecker.getRiskLevel`. -/
def getRiskLevel (score : ℚ) : String :=
  if score ≥ 80 then "critical"
  else if score ≥ 60 then "high"
  else if score ≥ 40 then "medium"
  else if score ≥ 20 then "low"
  else "minimal"

/-- The per-category scores reaching `calculateOverallAssessment`:
`none` when the category is absent, skipped, or errored (then it is
excluded from both `totalScore` and `maxScore`), otherwise the value of
the corresponding `calculateXSecurityScore` call, which lies in
`[0, 100]`. -/
structure CategoryScores where
  device : Option ℚ
  application : Option ℚ
  environment : Option ℚ
  fileIntegrity : Option ℚ
  network : Option ℚ
deriving DecidableEq, Repr

/-- One guarded accumulation step of `calculateOverallAssessment`:
an evaluated category contributes `(score · weight, weight)` to
`(totalScore, maxScore)`, an unevaluated one contributes nothing. -/
def contribution : Option ℚ → ℚ → ℚ × ℚ
  | none, _ => (0, 0)
  | some s, w => (s * w, w)

/-- The report record built by `calculateOverallAssessment`. -/
structure Assessment where
  overallScore : ℤ
  securityLevel : String
  riskLevel : String
  passed : Bool
deriving DecidableEq, Repr

/-- `SecurityChecker.calculateOverallAssessment` (part of
`validateSecurity`): weighted accumulation over the evaluated
categories (device 0.4, application 0.25, environment 0.2,
file integrity 0.1, network 0.05), then
`normalizedScore = maxScore > 0 ? (totalScore / maxScore) * 100 : 50`,
`overallScore = Math.round(normalizedScore)`,
`passed = normalizedScore >= 70`. -/
def calculateOverallAssessment (v : CategoryScores) : Assessment :=
  let d := contribution v.device (4 / 10)
  let a := contribution v.application (25 / 100)
  let e := contribution v.environment (2 / 10)
  let f := contribution v.fileIntegrity (1 / 10)
  let n := contribution v.network (5 / 100)
  let totalScore := d.1 + a.1 + e.1 + f.1 + n.1
  let maxScore := d.2 + a.2 + e.2 + f.2 + n.2
  let normalizedScore := if maxScore > 0 then totalScore / maxScore * 100 else 50
  { overallScore := jsRound normalizedScore
    securityLevel := getSecurityLevel normalizedScore
    riskLevel := getRiskLevel (100 - normalizedScore)
    passed := decide (normalizedScore ≥ 70) }

/-! ## FileManipulator: checksum-verified backup and restore

`FileManipulator` keeps a registry `this.checksums : Map(fileName →
{originalPath, localPath, checksum, timestamp})` and a set
`this.monitoredFiles`.  File contents are byte lists; the SHA-256
function of the external `crypto` module is the parameter `hash`.
`device` is the remote (device-side) file system reached through
`adb push`/`adb pull`, `localFs` the local one.
-/

/-- File contents as bytes. -/
abbrev Bytes := List Nat

/-- A file system: path → content. -/
abbrev FileStore := List (String × Bytes)

/-- One entry of `this.checksums` (the `BackupRecord` of the spec; the
JS value also carries a timestamp string, which no claim concerns). -/
structure BackupInfo where
  originalPath : String
  localPath : String
  checksum : Nat
deriving DecidableEq, Repr

/-- `this.checksums` and `this.monitoredFiles` of `FileManipulator`. -/
structure FMState where
  checksums : List (String × BackupInfo)
  monitoredFiles : List String
deriving DecidableEq, Repr

/-- Result shape `{success, error?}` of the `FileManipulator` methods. -/
structure OpResult where
  success : Bool
  error : Option String
deriving DecidableEq, Repr

/-- `tmp/backups` relative to the module (`this.backupDir`). -/
def backupDir : String := "tmp/backups"

/-- `path.join(this.backupDir, fileName)`. -/
def backupPath (fileName : String) : String := backupDir ++ "/" ++ fileName

/-- `FileManipulator.createBackup(remotePath, backupName)` with an
explicit `backupName` (= `fileName`): pull the remote file to
`backupDir/fileName` (the pull succeeds iff the remote file exists and
`adb` is reachable, the latter given by `pullOk`), hash the pulled
bytes, and record `{originalPath, localPath, checksum}` under
`fileName`.  On pull failure the failed pull result is returned and no
record is stored. -/
def createBackup (hash : Bytes → Nat) (pullOk : Bool)
    (device localFs : FileStore) (st : FMState)
    (remotePath fileName : String) :
    OpResult × FileStore × FMState :=
  match lookupS device remotePath with
  | none => ({ success := false, error := none }, localFs, st)
  | some content =>
    if pullOk then
      let localFs' := setS localFs (backupPath fileName) content
      let record : BackupInfo :=
        { originalPath := remotePath
          localPath := backupPath fileName
          checksum := hash content }
      ({ success := true, error := none }, localFs',
       { st with checksums := setS st.checksums fileName record })
    else ({ success := false, error := none }, localFs, st)

/-- `FileManipulator.restoreFromBackup(backupName)`: look the record up
(`Backup not found` failure otherwise), re-read the local backup file,
recompute its checksum, refuse with `Backup file integrity check
failed` if it differs from the recorded one, and only then
`adb push` the local copy back to `originalPath` (`pushOk` is the
reachability of `adb`; its error text is environment-dependent).
Returns the result together with the device file system and the
registry state after the call. -/
def restoreFromBackup (hash : Bytes → Nat) (pushOk : Bool)
    (device localFs : FileStore) (st : FMState) (backupName : String) :
    OpResult × FileStore × FMState :=
  match lookupS st.checksums backupName with
  | none =>
    ({ success := false, error := some ("Backup not found: " ++ backupName) },
     device, st)
  | some info =>
    match lookupS localFs info.localPath with
    | none => ({ success := false, error := none }, device, st)
    | some content =>
      if hash content ≠ info.checksum then
        ({ success := false, error := some "Backup file integrity check failed" },
         device, st)
      else if pushOk then
        ({ success := true, error := none },
         setS device info.originalPath content, st)
      else ({ success := false, error := none }, device, st)

/-- Is `p` one of the device paths matched by the `rm -f` globs
`/data/local/tmp/test_*`, `/data/local/tmp/tamper_*`,
`/data/local/tmp/temp_*` of `cleanup`? -/
def isCleanupTarget (p : String) : Bool :=
  startsWithL ("/data/local/tmp/test_").data p.data ||
  startsWithL ("/data/local/tmp/tamper_").data p.data ||
  startsWithL ("/data/local/tmp/temp_").data p.data

/-- Is `p` inside the local backup directory? -/
def inBackupDir (p : String) : Bool :=
  startsWithL (backupDir ++ "/").data p.data

/-- `FileManipulator.cleanup()`: remove the matching test files from the
device, empty the local backup directory, and clear `this.checksums`
and `this.monitoredFiles`. -/
def cleanup (device localFs : FileStore) (_st : FMState) :
    OpResult × FileStore × FileStore × FMState :=
  ({ success := true, error := none },
   device.filter (fun kv => ¬ isCleanupTarget kv.1),
   localFs.filter (fun kv => ¬ inBackupDir kv.1),
   { checksums := [], monitoredFiles := [] })

/-! ## FileManipulator: properties-file editing -/

/-- `line.trim().startsWith(key + '=')` of `modifyPropertiesFile`. -/
def propLineMatches (key : Str) (line : Str) : Bool :=
  startsWithL (key ++ ['=']) (trimL line)

/-- The body of `modifyPropertiesFile`: `lines.map(...)` threading the
mutable `keyFound` flag, then `modifiedLines.push(key=value)` when the
key was never found. -/
def modifyPropsLines (key value : Str) : List Str → Bool → List Str
  | [], keyFound => if keyFound then [] else [key ++ '=' :: value]
  | line :: rest, keyFound =>
    if propLineMatches key line then
      (key ++ '=' :: value) :: modifyPropsLines key value rest true
    else
      line :: modifyPropsLines key value rest keyFound

/-- `FileManipulator.modifyPropertiesFile(content, key, value)`:
split on newlines, rewrite every line whose trimmed form starts with
`key=`, append `key=value` when no line matched, join with newlines. -/
def modifyPropertiesFile (content key value : Str) : Str :=
  joinNl (modifyPropsLines key value (splitNl content) false)

/-- The claim's reading of `modifyPropertiesFile`, word for word: a
line that (literally, untrimmed) starts with `key=` is replaced by
`key=value`; if no such line exists, `key=value` is appended; all other
lines are unchanged.  Used only to compare against the source
function. -/
def modifyPropertiesClaim (content key value : Str) : Str :=
  let lines := splitNl content
  let kv := key ++ '=' :: value
  if lines.any (fun l => startsWithL (key ++ ['=']) l) then
    joinNl (lines.map (fun l => if startsWithL (key ++ ['=']) l then kv else l))
  else
    joinNl (lines ++ [kv])

/-- The amended reading: the matched lines are those whose
whitespace-trimmed form starts with `key=`. -/
def modifyPropertiesAmended (content key value : Str) : Str :=
  let lines := splitNl content
  let kv := key ++ '=' :: value
  if lines.any (propLineMatches key) then
    joinNl (lines.map (fun l => if propLineMatches key l then kv else l))
  else
    joinNl (lines ++ [kv])

/-! ## FileManipulator: integrity monitoring

`monitorFileIntegrity(filePaths, duration)` captures per-path baseline
checksums into `initialChecksums`, then a `setInterval` callback
(every 5000 ms) recomputes each path's checksum
(`calculateRemoteFileChecksum`, `none` when the shell call fails),
pushes an `IntegrityChange` on mismatch and overwrites the baseline
entry with the new value; a `setTimeout` clears the interval after
`duration` ms.  One callback execution over the baseline map is
`pollOnce`; a sequence of callback executions is `runPolls`, fed with
the checksum observation of each tick.
-/

/-- The change object pushed by the monitoring callback. -/
structure IntegrityChange where
  filePath : String
  originalChecksum : Nat
  currentChecksum : Nat
deriving DecidableEq, Repr

/-- One execution of the `setInterval` callback: walk the baseline
entries in order; on `currentChecksum && currentChecksum !==
originalChecksum` record a change and update the baseline entry. -/
def pollOnce (cur : String → Option Nat) :
    List (String × Nat) → List (String × Nat) × List IntegrityChange
  | [] => ([], [])
  | (p, c) :: rest =>
    let r := pollOnce cur rest
    match cur p with
    | none => ((p, c) :: r.1, r.2)
    | some c' =>
      if c' ≠ c then
        ((p, c') :: r.1, { filePath := p, originalChecksum := c,
                           currentChecksum := c' } :: r.2)
      else ((p, c) :: r.1, r.2)

/-- A sequence of interval callbacks, one checksum observation per
tick; changes accumulate in the shared `changes` array. -/
def runPolls : List (String → Option Nat) → List (String × Nat) →
    List (String × Nat) × List IntegrityChange
  | [], baselines => (baselines, [])
  | cur :: rest, baselines =>
    let r1 := pollOnce cur baselines
    let r2 := runPolls rest r1.1
    (r2.1, r1.2 ++ r2.2)

/-- Events of the `monitorFileIntegrity` call on the JS event loop. -/
inductive MonEvent where
  | resolve
  | poll (time : Nat)
  | stop (time : Nat)
deriving DecidableEq, Repr

/-- The event order induced by `monitorFileIntegrity(paths, duration)`:
after computing the baselines it registers
`setInterval(callback, 5000)`, registers `setTimeout(clearInterval,
duration)`, and immediately returns the result object — so the promise
resolves before any interval tick.  The interval fires at
`interval, 2·interval, …` up to and including `duration` (timers due at
the same instant run in registration order, and the interval was
registered first), after which the timeout clears it. -/
def monitorTimeline (duration interval : Nat) : List MonEvent :=
  MonEvent.resolve ::
    (List.range (duration / interval)).map
      (fun k => MonEvent.poll ((k + 1) * interval))
    ++ [MonEvent.stop duration]

/-! ## Helper lemmas -/

theorem firedCount_le_length (l : List Bool) : firedCount l ≤ l.length :=
  List.length_filter_le _ _

theorem detectConfidence_nonneg (l : List Bool) : 0 ≤ detectConfidence l :=
  div_nonneg (Nat.cast_nonneg _) (Nat.cast_nonneg _)

theorem detectConfidence_le_one (l : List Bool) : detectConfidence l ≤ 1 := by
  rcases Nat.eq_zero_or_pos l.length with h | h
  · simp [detectConfidence, h]
  · rw [detectConfidence, div_le_one (by exact_mod_cast h)]
    exact_mod_cast firedCount_le_length l

theorem modifyPropsLines_eq (key value : Str) (ls : List Str) (found : Bool) :
    modifyPropsLines key value ls found =
      ls.map (fun l => if propLineMatches key l then key ++ '=' :: value else l) ++
        (if found || ls.any (propLineMatches key) then [] else [key ++ '=' :: value]) := by
  induction ls generalizing found with
  | nil => cases found <;> simp [modifyPropsLines]
  | cons hd tl ih =>
    by_cases h : propLineMatches key hd <;>
      simp [modifyPropsLines, h, ih]

theorem map_id_of_no_match (key value : Str) (ls : List Str)
    (h : ls.any (propLineMatches key) = false) :
    ls.map (fun l => if propLineMatches key l then key ++ '=' :: value else l) = ls := by
  rw [List.any_eq_false] at h
  calc ls.map (fun l => if propLineMatches key l then key ++ '=' :: value else l)
      = ls.map id := List.map_congr_left (fun a ha => by simp [h a ha])
    _ = ls := List.map_id ls

/-! ## The claims -/

/-- C1: a backup record created by `createBackup` whose local backup
file is afterwards mutated so that its recomputed checksum differs from
the recorded one makes `restoreFromBackup` fail with the integrity
verification failure, without any push: the device file system is
returned unchanged (and so is the registry). -/
theorem C1_restore_refuses_on_checksum_mismatch
    (hash : Bytes → Nat) (pullOk pushOk : Bool)
    (device localFs : FileStore) (st : FMState)
    (remotePath fileName : String) (tampered : Bytes)
    (res : OpResult) (localFs1 : FileStore) (st1 : FMState)
    (hcb : createBackup hash pullOk device localFs st remotePath fileName
            = (res, localFs1, st1))
    (hsucc : res.success = true)
    (info : BackupInfo)
    (hinfo : lookupS st1.checksums fileName = some info)
    (hmismatch : hash tampered ≠ info.checksum) :
    restoreFromBackup hash pushOk device
        (setS localFs1 info.localPath tampered) st1 fileName
      = ({ success := false, error := some "Backup file integrity check failed" },
         device, st1) := by
  unfold createBackup at hcb
  rcases hdev : lookupS device remotePath with _ | content
  · rw [hdev] at hcb
    simp only [Prod.mk.injEq] at hcb
    obtain ⟨h1, -, -⟩ := hcb
    rw [← h1] at hsucc
    simp at hsucc
  · rw [hdev] at hcb
    rcases hp : pullOk with _ | _
    · rw [hp] at hcb
      simp only [Bool.false_eq_true, if_false, Prod.mk.injEq] at hcb
      obtain ⟨h1, -, -⟩ := hcb
      rw [← h1] at hsucc
      simp at hsucc
    · rw [hp] at hcb
      simp only [if_true, Prod.mk.injEq] at hcb
      obtain ⟨-, -, h3⟩ := hcb
      rw [← h3] at hinfo
      simp only [lookupS_setS_self] at hinfo
      obtain rfl : info = { originalPath := remotePath,
                            localPath := backupPath fileName,
                            checksum := hash content } := by
        injection hinfo with h
        exact h.symm
      unfold restoreFromBackup
      rw [← h3]
      simp only [lookupS_setS_self, hmismatch, if_pos, ne_eq,
        not_false_iff, if_true]

/-- C1 witness: a concrete backup of `/data/f` (bytes `[1,2,3]`,
`hash := List.sum`) whose local copy is mutated to `[9]`. -/
theorem C1_witness :
    restoreFromBackup (fun b => b.sum) true [("/data/f", [1, 2, 3])]
        (setS [("tmp/backups/b1", [1, 2, 3])] "tmp/backups/b1" [9])
        { checksums := [("b1", { originalPath := "/data/f",
                                 localPath := "tmp/backups/b1",
                                 checksum := 6 })],
          monitoredFiles := [] } "b1"
      = ({ success := false, error := some "Backup file integrity check failed" },
         [("/data/f", [1, 2, 3])],
         { checksums := [("b1", { originalPath := "/data/f",
                                  localPath := "tmp/backups/b1",
                                  checksum := 6 })],
           monitoredFiles := [] }) :=
  C1_restore_refuses_on_checksum_mismatch
    (fun b => b.sum) true true [("/data/f", [1, 2, 3])] []
    { checksums := [], monitoredFiles := [] } "/data/f" "b1" [9]
    { success := true, error := none }
    [("tmp/backups/b1", [1, 2, 3])]
    { checksums := [("b1", { originalPath := "/data/f",
                             localPath := "tmp/backups/b1",
                             checksum := 6 })],
      monitoredFiles := [] }
    (by decide) (by decide)
    { originalPath := "/data/f", localPath := "tmp/backups/b1", checksum := 6 }
    (by decide) (by decide)

/-- C2: with only the device category evaluated at score 100 (a legal
input: each category score lies in [0,100]) the code produces
`overallScore = 10000`, violating the claimed bound
`overallScore ∈ [0,100]`: `calculateOverallAssessment` multiplies
`totalScore / maxScore` — already a 0–100 weighted mean — by a stray
factor 100. -/
theorem C2_overall_score_exceeds_bound :
    (calculateOverallAssessment
      { device := some 100, application := none, environment := none,
        fileIntegrity := none, network := none }).overallScore = 10000 ∧
    ¬ (calculateOverallAssessment
      { device := some 100, application := none, environment := none,
        fileIntegrity := none, network := none }).overallScore ≤ 100 := by
  have h : (calculateOverallAssessment
      { device := some 100, application := none, environment := none,
        fileIntegrity := none, network := none }).overallScore = 10000 := by
    simp only [calculateOverallAssessment, contribution, jsRound]
    norm_num [Int.floor_eq_iff]
  exact ⟨h, by rw [h]; norm_num⟩

/-- C3: for the renormalization example (only the device category
evaluated, score 100) the code yields `overallScore = 10000` — neither
the claimed renormalized 100 nor the raw weight share 40.  The
renormalization itself is present (division by `maxScore = 0.4`), but
the result is then multiplied by 100. -/
theorem C3_renormalization_off_by_factor_100 :
    calculateOverallAssessment
      { device := some 100, application := none, environment := none,
        fileIntegrity := none, network := none }
      = { overallScore := 10000, securityLevel := "excellent",
          riskLevel := "minimal", passed := true } ∧
    (10000 : ℤ) ≠ 100 ∧ (10000 : ℤ) ≠ 40 := by
  refine ⟨?_, by norm_num, by norm_num⟩
  simp only [calculateOverallAssessment, contribution, jsRound,
    getSecurityLevel, getRiskLevel, Assessment.mk.injEq]
  norm_num [Int.floor_eq_iff]

/-- C4: for the weighted example (device 50, application 100,
environment 90, file integrity 100, network 100) the code yields
`overallScore = 7800` and securityLevel `excellent` instead of the
claimed 78 and `acceptable`; `passed = true` holds, but only because
7800 ≥ 70. -/
theorem C4_weighted_example_scaled_by_100 :
    calculateOverallAssessment
      { device := some 50, application := some 100, environment := some 90,
        fileIntegrity := some 100, network := some 100 }
      = { overallScore := 7800, securityLevel := "excellent",
          riskLevel := "minimal", passed := true } := by
  simp only [calculateOverallAssessment, contribution, jsRound,
    getSecurityLevel, getRiskLevel, Assessment.mk.injEq]
  norm_num [Int.floor_eq_iff]

/-- C5: monitoring a path with baseline `c0`: a tick observing `c1`
emits exactly one `IntegrityChange {p, c0, c1}` and updates the
baseline entry to `c1`; a further tick still observing `c1` emits
nothing; a later tick observing the revert to `c0` emits a second
change `{p, c1, c0}` — comparison is against the last observed value,
not the original baseline. -/
theorem C5_monitor_compare_to_last_observed
    (p : String) (c0 c1 : Nat) (h : c1 ≠ c0) :
    pollOnce (fun _ => some c1) [(p, c0)]
      = ([(p, c1)],
         [{ filePath := p, originalChecksum := c0, currentChecksum := c1 }]) ∧
    runPolls [fun _ => some c1, fun _ => some c1, fun _ => some c0] [(p, c0)]
      = ([(p, c0)],
         [{ filePath := p, originalChecksum := c0, currentChecksum := c1 },
          { filePath := p, originalChecksum := c1, currentChecksum := c0 }]) := by
  constructor <;> simp [pollOnce, runPolls, h, Ne.symm h]

/-- C5 witness at `p := "p"`, `c0 := 0`, `c1 := 1`. -/
theorem C5_witness :
    pollOnce (fun _ => some 1) [("p", 0)]
      = ([("p", 1)],
         [{ filePath := "p", originalChecksum := 0, currentChecksum := 1 }]) ∧
    runPolls [fun _ => some 1, fun _ => some 1, fun _ => some 0] [("p", 0)]
      = ([("p", 0)],
         [{ filePath := "p", originalChecksum := 0, currentChecksum := 1 },
          { filePath := "p", originalChecksum := 1, currentChecksum := 0 }]) :=
  C5_monitor_compare_to_last_observed "p" 0 1 (by decide)

/-- C6: for every root detection run (eight indicators) and emulator
detection run (seven indicators), the confidence equals the number of
fired indicators divided by the total number of indicators and lies in
[0, 1]. -/
theorem C6_confidence_fraction_and_bounded
    (r : RootChecks) (e : EmulatorChecks) :
    rootConfidence r = (firedCount (rootIndicators r) : ℚ) / 8 ∧
    0 ≤ rootConfidence r ∧ rootConfidence r ≤ 1 ∧
    emulatorConfidence e = (firedCount (emulatorIndicators e) : ℚ) / 7 ∧
    0 ≤ emulatorConfidence e ∧ emulatorConfidence e ≤ 1 := by
  refine ⟨?_, detectConfidence_nonneg _, detectConfidence_le_one _,
          ?_, detectConfidence_nonneg _, detectConfidence_le_one _⟩
  · simp [rootConfidence, detectConfidence, rootIndicators]
  · simp [emulatorConfidence, detectConfidence, emulatorIndicators]

/-- C7 counterexample: root detection has eight uniform indicators, not
four; with exactly `su_binary` and `system_writable` fired the
confidence is 1/4 (not the claimed 1/2), which does not exceed the 0.3
threshold, so `isRooted` is false and the risk is `low` (not
`critical`). -/
theorem C7_counterexample :
    rootConfidence ⟨true, false, true, false, false, false, false, false⟩ = 1 / 4 ∧
    rootConfidence ⟨true, false, true, false, false, false, false, false⟩ ≠ 1 / 2 ∧
    isRooted ⟨true, false, true, false, false, false, false, false⟩ = false ∧
    calculateRootRisk
        (some (isRooted ⟨true, false, true, false, false, false, false, false⟩))
      = "low" := by
  have hconf : rootConfidence ⟨true, false, true, false, false, false, false, false⟩
      = 1 / 4 := by
    simp [rootConfidence, detectConfidence, firedCount, rootIndicators]
    norm_num
  have hroot : isRooted ⟨true, false, true, false, false, false, false, false⟩
      = false := by
    simp only [isRooted, hconf, decide_eq_false_iff_not]
    norm_num
  exact ⟨hconf, by rw [hconf]; norm_num, hroot, by rw [hroot]; rfl⟩

/-- C7 amended: over the eight uniform-weight root indicators
(su binary, root apps, system writable, dangerous props, root cloaking,
busybox, xposed, magisk) and the rule `detected := confidence > 0.3`:
all indicators false gives confidence 0, not detected, risk `low`;
`su_binary` and `system_writable` fired give confidence 1/4 ≤ 0.3, so
still not detected and risk `low`; a third fired indicator (here
`root_apps`) gives confidence 3/8 > 0.3, detected, risk `critical`. -/
theorem C7_amended_eight_indicator_threshold :
    (rootConfidence ⟨false, false, false, false, false, false, false, false⟩ = 0 ∧
     isRooted ⟨false, false, false, false, false, false, false, false⟩ = false ∧
     calculateRootRisk
        (some (isRooted ⟨false, false, false, false, false, false, false, false⟩))
       = "low") ∧
    (rootConfidence ⟨true, false, true, false, false, false, false, false⟩ = 1 / 4 ∧
     isRooted ⟨true, false, true, false, false, false, false, false⟩ = false ∧
     calculateRootRisk
        (some (isRooted ⟨true, false, true, false, false, false, false, false⟩))
       = "low") ∧
    (rootConfidence ⟨true, true, true, false, false, false, false, false⟩ = 3 / 8 ∧
     isRooted ⟨true, true, true, false, false, false, false, false⟩ = true ∧
     calculateRootRisk
        (some (isRooted ⟨true, true, true, false, false, false, false, false⟩))
       = "critical") := by
  have h0 : rootConfidence ⟨false, false, false, false, false, false, false, false⟩
      = 0 := by
    simp [rootConfidence, detectConfidence, firedCount, rootIndicators]
  have h0r : isRooted ⟨false, false, false, false, false, false, false, false⟩
      = false := by
    simp only [isRooted, h0, decide_eq_false_iff_not]
    norm_num
  have h2 : rootConfidence ⟨true, false, true, false, false, false, false, false⟩
      = 1 / 4 := by
    simp [rootConfidence, detectConfidence, firedCount, rootIndicators]
    norm_num
  have h2r : isRooted ⟨true, false, true, false, false, false, false, false⟩
      = false := by
    simp only [isRooted, h2, decide_eq_false_iff_not]
    norm_num
  have h3 : rootConfidence ⟨true, true, true, false, false, false, false, false⟩
      = 3 / 8 := by
    norm_num [rootConfidence, detectConfidence, firedCount, rootIndicators]
  have h3r : isRooted ⟨true, true, true, false, false, false, false, false⟩
      = true := by
    simp only [isRooted, h3, decide_eq_true_eq]
    norm_num
  exact ⟨⟨h0, h0r, by rw [h0r]; rfl⟩, ⟨h2, h2r, by rw [h2r]; rfl⟩,
         ⟨h3, h3r, by rw [h3r]; rfl⟩⟩

/-- C8: for a monitor call of 30000 ms the promise resolution is the
very first event on the timeline — the result object is returned
synchronously after baseline capture — and all interval ticks (which
append `IntegrityChange`s to the already-returned `changes` array)
happen after it, contradicting the claim that the call resolves only
when the duration elapses or the caller cancels. -/
theorem C8_resolves_before_polls :
    monitorTimeline 30000 5000
      = [MonEvent.resolve, MonEvent.poll 5000, MonEvent.poll 10000,
         MonEvent.poll 15000, MonEvent.poll 20000, MonEvent.poll 25000,
         MonEvent.poll 30000, MonEvent.stop 30000] := by
  decide

/-- C9 counterexample: a successful `restoreFromBackup` leaves its
record in the registry — the record for `b1` is still present after
the restore succeeds, contrary to the claim that restore consumes
it. -/
theorem C9_counterexample :
    (restoreFromBackup (fun b => b.sum) true [("/data/f", [0])]
        [("tmp/backups/b1", [1, 2, 3])]
        { checksums := [("b1", { originalPath := "/data/f",
                                 localPath := "tmp/backups/b1",
                                 checksum := 6 })],
          monitoredFiles := [] } "b1").1.success = true ∧
    lookupS (restoreFromBackup (fun b => b.sum) true [("/data/f", [0])]
        [("tmp/backups/b1", [1, 2, 3])]
        { checksums := [("b1", { originalPath := "/data/f",
                                 localPath := "tmp/backups/b1",
                                 checksum := 6 })],
          monitoredFiles := [] } "b1").2.2.checksums "b1"
      = some { originalPath := "/data/f", localPath := "tmp/backups/b1",
               checksum := 6 } := by
  decide

/-- C9 amended: a `BackupRecord` is created by `createBackup` and
destroyed only by an explicit `cleanup()` call: `restoreFromBackup`
(whatever its outcome) leaves the registry unchanged, and after
`cleanup()` the registry holds no records. -/
theorem C9_amended_registry_lifecycle
    (hash : Bytes → Nat) (pushOk : Bool)
    (device localFs : FileStore) (st : FMState) (backupName : String) :
    (restoreFromBackup hash pushOk device localFs st backupName).2.2 = st ∧
    (cleanup device localFs st).2.2.2.checksums = [] := by
  refine ⟨?_, rfl⟩
  unfold restoreFromBackup
  split
  · rfl
  · split
    · rfl
    · split
      · rfl
      · split <;> rfl

/-- C10 counterexample: for content `" a=1"` (leading space), key `a`,
value `2`, the code rewrites the whitespace-indented line (its trimmed
form starts with `a=`) to `a=2`, while the claim as stated — only lines
literally starting with `a=` are replaced, otherwise `a=2` is appended
with all other lines unchanged — demands `" a=1\na=2"`. -/
theorem C10_counterexample :
    modifyPropertiesFile (" a=1").data ("a").data ("2").data = ("a=2").data ∧
    modifyPropertiesClaim (" a=1").data ("a").data ("2").data = (" a=1\na=2").data ∧
    modifyPropertiesFile (" a=1").data ("a").data ("2").data
      ≠ modifyPropertiesClaim (" a=1").data ("a").data ("2").data := by
  decide

/-- C10 amended: `modifyPropertiesFile` coincides, for every content,
key and value, with the edit that replaces every line whose
whitespace-trimmed form starts with `key=` by `key=value`, appends
`key=value` when no such line exists, and leaves all other lines
unchanged in order. -/
theorem C10_amended_properties_edit (content key value : Str) :
    modifyPropertiesFile content key value
      = modifyPropertiesAmended content key value := by
  unfold modifyPropertiesFile modifyPropertiesAmended
  rw [modifyPropsLines_eq]
  rcases hany : (splitNl content).any (propLineMatches key) with _ | _
  · simp only [Bool.false_or, if_neg (by simp [hany] : ¬ (false || false) = true)]
    rw [map_id_of_no_match key value _ hany]
    simp [hany]
  · simp [hany]

end MobileSec
